import Mathlib

/-!
Shallow embedding of `src/platform_impl/web/web_sys/canvas/pointer_handler.rs`
(the web pointer-event normalization and dispatch component of winit).

Raw `PointerEvent`s are modelled as records whose fields are the outputs of the
external attribute extractors (`event::mouse_modifiers`, `event::mouse_buttons`,
`event::mouse_button`, `event::mouse_position`, `event::mouse_delta`,
`event::touch_position`, `PointerEvent::pressure`, `pointer_id`, `pointer_type`).
Each dispatch closure body is embedded as a pure function from the raw event
(plus the external scale factor) to the list of observable effects it performs,
in order: handler invocations, the pointer-capture request, and the
prevent-default call.  The `expect` aborts on a missing mouse button are
embedded as `Except.error`.  Floating point quantities (positions, deltas,
pressure, scale factor) are modelled as rationals; the code only passes them
through and multiplies by the scale factor, with no rounding-sensitive logic.
-/

/-- Keyboard modifier snapshot (`ModifiersState` bitmask of Shift/Control/Alt/Super),
produced by the external extractor `event::mouse_modifiers`. -/
structure ModifiersState where
  shiftKey : Bool
  controlKey : Bool
  altKey : Bool
  superKey : Bool
deriving DecidableEq, Repr

/-- Bitmask of currently-held mouse buttons (`event::ButtonsState`), produced by
the external extractor `event::mouse_buttons`.  Modelled as an opaque bit pattern:
the dispatch code only copies it. -/
structure ButtonsState where
  bits : Nat
deriving DecidableEq, Repr

/-- `winit::event::MouseButton`: the single button whose state changed. -/
inductive MouseButton where
  | Left
  | Right
  | Middle
  | Back
  | Forward
  | Other (code : Nat)
deriving DecidableEq, Repr

/-- A position in logical (pre-DPI-scaling) pixel coordinates. -/
structure LogicalPosition where
  x : ℚ
  y : ℚ
deriving DecidableEq, Repr

/-- A position in physical pixel coordinates, after applying the scale factor. -/
structure PhysicalPosition where
  x : ℚ
  y : ℚ
deriving DecidableEq, Repr

/-- `LogicalPosition::to_physical(scale_factor)`: multiply both coordinates by
the externally supplied scale factor. -/
def LogicalPosition.to_physical (p : LogicalPosition) (scale : ℚ) : PhysicalPosition :=
  ⟨p.x * scale, p.y * scale⟩

/-- `winit::event::Force`.  The web backend only ever constructs
`Force::Normalized(pressure)`. -/
inductive Force where
  | Calibrated (force : ℚ) (maxPossibleForce : ℚ) (altitudeAngle : Option ℚ)
  | Normalized (value : ℚ)
deriving DecidableEq, Repr

/-- A raw host `PointerEvent`, viewed through the external attribute extractors.
Each field records what the corresponding extractor would return on this event. -/
structure RawPointerEvent where
  pointer_type : String
  pointer_id : Int
  pressure : ℚ
  mouse_modifiers : ModifiersState
  mouse_buttons : ButtonsState
  mouse_button : Option MouseButton
  mouse_position : LogicalPosition
  mouse_delta : LogicalPosition
  touch_position : LogicalPosition
deriving DecidableEq, Repr

/-- One host delivery of a `pointermove` event: the root event plus the result of
probing `getCoalescedEvents`.  `none` models a host without the accessor
(Safari); `some batch` models `get_coalesced_events()` returning `batch`. -/
structure MoveDelivery where
  root : RawPointerEvent
  coalesced : Option (List RawPointerEvent)
deriving DecidableEq, Repr

/-- A single caller-visible handler invocation, one constructor per handler
signature in the six registration entry points. -/
inductive Invocation where
  | enter (id : Int) (modifiers : ModifiersState)
  | leave (id : Int) (modifiers : ModifiersState)
  | mousePress (id : Int) (position : PhysicalPosition) (button : MouseButton)
      (modifiers : ModifiersState)
  | touchPress (id : Int) (position : PhysicalPosition) (force : Force)
  | mouseRelease (id : Int) (button : MouseButton) (modifiers : ModifiersState)
  | touchRelease (id : Int) (position : PhysicalPosition) (force : Force)
  | mouseMove (id : Int) (position : PhysicalPosition) (delta : PhysicalPosition)
      (modifiers : ModifiersState) (buttons : ButtonsState) (button : Option MouseButton)
  | touchMove (id : Int) (position : PhysicalPosition) (force : Force)
  | cancel (id : Int) (position : PhysicalPosition) (force : Force)
deriving DecidableEq, Repr

/-- An observable side effect performed by a dispatch closure, in program order. -/
inductive Effect where
  | invoke (i : Invocation)
  | setPointerCapture (id : Int)
  | preventDefault
deriving DecidableEq, Repr

/-- The handler invocations among a list of effects, in order. -/
def invocationsOf (effs : List Effect) : List Invocation :=
  effs.filterMap fun eff =>
    match eff with
    | Effect.invoke i => some i
    | _ => none

/-- Closure installed by `on_cursor_leave`: ignore everything but `"mouse"`,
then call `handler(pointer_id, mouse_modifiers)`. -/
def cursor_leave_callback (e : RawPointerEvent) : List Effect :=
  if e.pointer_type ≠ "mouse" then []
  else [Effect.invoke (Invocation.leave e.pointer_id e.mouse_modifiers)]

/-- Closure installed by `on_cursor_enter`: ignore everything but `"mouse"`,
then call `handler(pointer_id, mouse_modifiers)`. -/
def cursor_enter_callback (e : RawPointerEvent) : List Effect :=
  if e.pointer_type ≠ "mouse" then []
  else [Effect.invoke (Invocation.enter e.pointer_id e.mouse_modifiers)]

/-- Closure installed by `on_mouse_release` on `"pointerup"`.  The `"mouse"` arm
calls `.expect("no mouse button released")` on the extracted button, modelled as
`Except.error`; other pointer types fall to the `_ => ()` arm. -/
def pointer_release_callback (e : RawPointerEvent) (scale : ℚ) :
    Except String (List Effect) :=
  if e.pointer_type = "touch" then
    Except.ok [Effect.invoke (Invocation.touchRelease e.pointer_id
      (e.touch_position.to_physical scale) (Force.Normalized e.pressure))]
  else if e.pointer_type = "mouse" then
    match e.mouse_button with
    | some b =>
        Except.ok [Effect.invoke (Invocation.mouseRelease e.pointer_id b e.mouse_modifiers)]
    | none => Except.error "no mouse button released"
  else Except.ok []

/-- Closure installed by `on_mouse_press` on `"pointerdown"`.  The `"mouse"` arm
invokes the handler (aborting via `.expect("no mouse button pressed")` when no
button was extracted), then requests pointer capture with
`let _e = canvas.set_pointer_capture(event.pointer_id())`, discarding the
result; `captureResult` models that discarded outcome and is deliberately
unused, exactly as `_e` is. -/
def pointer_press_callback (e : RawPointerEvent) (scale : ℚ) (captureResult : Bool) :
    Except String (List Effect) :=
  if e.pointer_type = "touch" then
    Except.ok [Effect.invoke (Invocation.touchPress e.pointer_id
      (e.touch_position.to_physical scale) (Force.Normalized e.pressure))]
  else if e.pointer_type = "mouse" then
    match e.mouse_button with
    | some b =>
        Except.ok [Effect.invoke (Invocation.mousePress e.pointer_id
          (e.mouse_position.to_physical scale) b e.mouse_modifiers),
          Effect.setPointerCapture e.pointer_id]
    | none => Except.error "no mouse button pressed"
  else Except.ok []

/-- Closure installed by `on_touch_cancel` on `"pointercancel"`: only the
`"touch"` pointer type fires the handler. -/
def touch_cancel_callback (e : RawPointerEvent) (scale : ℚ) : List Effect :=
  if e.pointer_type = "touch" then
    [Effect.invoke (Invocation.cancel e.pointer_id
      (e.touch_position.to_physical scale) (Force.Normalized e.pressure))]
  else []

/-- The coalesced-batch expansion inside the `on_cursor_move` closure:
`(!undefined).then(get_coalesced_events).filter(len != 0)` followed by
`if let Some(events) { events } else { [root] }`.  An absent accessor or an
empty batch both yield the singleton root. -/
def expandCoalesced (d : MoveDelivery) : List RawPointerEvent :=
  match d.coalesced with
  | some batch => if batch.length = 0 then [d.root] else batch
  | none => [d.root]

/-- The `mouse` cache computed once from the root event before the loop:
`(pointer_type == "mouse").then(|| (mouse_modifiers, mouse_buttons, mouse_button))`. -/
def mouseCache (e : RawPointerEvent) :
    Option (ModifiersState × ButtonsState × Option MouseButton) :=
  if e.pointer_type = "mouse" then
    some (e.mouse_modifiers, e.mouse_buttons, e.mouse_button)
  else none

/-- The loop body of the `on_cursor_move` closure for one expanded sub-event:
`id` and the cached `mouse` triple come from the root event; position and delta
(mouse) or position and pressure (touch) are extracted from the sub-event. -/
def moveEmit (id : Int) (mouse : Option (ModifiersState × ButtonsState × Option MouseButton))
    (scale : ℚ) (e : RawPointerEvent) : Invocation :=
  match mouse with
  | some (m, bs, b) =>
      Invocation.mouseMove id (e.mouse_position.to_physical scale)
        (e.mouse_delta.to_physical scale) m bs b
  | none =>
      Invocation.touchMove id (e.touch_position.to_physical scale)
        (Force.Normalized e.pressure)

/-- Closure installed by `on_cursor_move` on `"pointermove"`: classify the root
pointer type (returning early on anything but `"touch"`/`"mouse"`, and calling
`prevent_default()` first on touch when configured), cache `id` and the mouse
triple from the root, expand the coalesced batch, and emit one handler
invocation per expanded sub-event, in batch order. -/
def pointermove_callback (d : MoveDelivery) (scale : ℚ) (prevent : Bool) : List Effect :=
  if d.root.pointer_type = "touch" then
    (if prevent then [Effect.preventDefault] else []) ++
      (expandCoalesced d).map fun e =>
        Effect.invoke (moveEmit d.root.pointer_id (mouseCache d.root) scale e)
  else if d.root.pointer_type = "mouse" then
    (expandCoalesced d).map fun e =>
      Effect.invoke (moveEmit d.root.pointer_id (mouseCache d.root) scale e)
  else []

/-- The listener registry: one optional subscription handle per logical kind,
each handle modelled by the numeric token of the host-side listener it owns. -/
structure PointerHandler where
  on_cursor_leave : Option Nat
  on_cursor_enter : Option Nat
  on_cursor_move : Option Nat
  on_pointer_press : Option Nat
  on_pointer_release : Option Nat
  on_touch_cancel : Option Nat
deriving DecidableEq, Repr

/-- `PointerHandler::new()`: all six slots empty. -/
def PointerHandler.new : PointerHandler :=
  { on_cursor_leave := none
    on_cursor_enter := none
    on_cursor_move := none
    on_pointer_press := none
    on_pointer_release := none
    on_touch_cancel := none }

/-- `PointerHandler::remove_listeners()`: assign `None` to all six slots
(each assignment drops the previous handle, detaching its listener). -/
def remove_listeners (_h : PointerHandler) : PointerHandler :=
  { on_cursor_leave := none
    on_cursor_enter := none
    on_cursor_move := none
    on_pointer_press := none
    on_pointer_release := none
    on_touch_cancel := none }

/-- A host-visible registration action: attaching a listener to a named host
event channel (what `add_event`/`add_user_event` does when called), or
disposing a subscription handle (what dropping an `EventListenerHandle` does). -/
inductive RegistryAction where
  | attach (eventName : String) (token : Nat)
  | dispose (eventName : String) (token : Nat)
deriving DecidableEq, Repr

/-- The effect order of `self.slot = Some(canvas_common.add_event(name, ...))`
in Rust: the right-hand side is evaluated first, attaching the fresh listener,
and only then is the previous value of the slot dropped, disposing the old
handle.  Returns the new slot value and the ordered action trace. -/
def replaceSubscription (old : Option Nat) (eventName : String) (fresh : Nat) :
    Option Nat × List RegistryAction :=
  (some fresh,
    RegistryAction.attach eventName fresh ::
      (match old with
       | some t => [RegistryAction.dispose eventName t]
       | none => []))

/-- Registration entry point `on_cursor_move` viewed as a registry transition:
`self.on_cursor_move = Some(add_event("pointermove", ...))`, with `fresh` the
token of the newly attached listener. -/
def on_cursor_move_install (h : PointerHandler) (fresh : Nat) :
    PointerHandler × List RegistryAction :=
  let p := replaceSubscription h.on_cursor_move "pointermove" fresh
  ({ h with on_cursor_move := p.1 }, p.2)

/-- Registration entry point `on_cursor_leave` viewed as a registry transition:
`self.on_cursor_leave = Some(add_event("pointerout", ...))`. -/
def on_cursor_leave_install (h : PointerHandler) (fresh : Nat) :
    PointerHandler × List RegistryAction :=
  let p := replaceSubscription h.on_cursor_leave "pointerout" fresh
  ({ h with on_cursor_leave := p.1 }, p.2)

/-- The listeners attached to the host channel after processing a trace of
registration actions, starting from the given attached set. -/
def activeTokens (tr : List RegistryAction) (init : List Nat) : List Nat :=
  tr.foldl
    (fun acc a =>
      match a with
      | RegistryAction.attach _ t => acc ++ [t]
      | RegistryAction.dispose _ t => acc.erase t)
    init

/-- The pointer id argument of a handler invocation. -/
def Invocation.invId : Invocation → Int
  | Invocation.enter id _ => id
  | Invocation.leave id _ => id
  | Invocation.mousePress id _ _ _ => id
  | Invocation.touchPress id _ _ => id
  | Invocation.mouseRelease id _ _ => id
  | Invocation.touchRelease id _ _ => id
  | Invocation.mouseMove id _ _ _ _ _ => id
  | Invocation.touchMove id _ _ => id
  | Invocation.cancel id _ _ => id

/-- The modifiers argument of a mouse-move invocation, `none` otherwise. -/
def Invocation.moveModifiers : Invocation → Option ModifiersState
  | Invocation.mouseMove _ _ _ m _ _ => some m
  | _ => none

/-- The held-buttons argument of a mouse-move invocation, `none` otherwise. -/
def Invocation.moveButtons : Invocation → Option ButtonsState
  | Invocation.mouseMove _ _ _ _ bs _ => some bs
  | _ => none

/-- The changed-button argument of a mouse-move invocation, `none` otherwise. -/
def Invocation.moveButton : Invocation → Option (Option MouseButton)
  | Invocation.mouseMove _ _ _ _ _ b => some b
  | _ => none

/-- The force arguments handed to touch handlers among a list of effects. -/
def forcesOf (effs : List Effect) : List Force :=
  effs.filterMap fun eff =>
    match eff with
    | Effect.invoke (Invocation.touchPress _ _ f) => some f
    | Effect.invoke (Invocation.touchRelease _ _ f) => some f
    | Effect.invoke (Invocation.touchMove _ _ f) => some f
    | Effect.invoke (Invocation.cancel _ _ f) => some f
    | _ => none

/-- The force arguments of a fallible dispatch: none when it aborted. -/
def forcesOfE (r : Except String (List Effect)) : List Force :=
  match r with
  | Except.ok effs => forcesOf effs
  | Except.error _ => []

/-- A force value that is `Normalized` with payload inside the unit interval. -/
def Force.inUnitRange : Force → Prop
  | Force.Normalized p => 0 ≤ p ∧ p ≤ 1
  | Force.Calibrated _ _ _ => False

instance (f : Force) : Decidable f.inUnitRange := by
  cases f <;> simp [Force.inUnitRange] <;> infer_instance

lemma invocationsOf_append (a b : List Effect) :
    invocationsOf (a ++ b) = invocationsOf a ++ invocationsOf b :=
  List.filterMap_append a b _

lemma invocationsOf_invoke_map (l : List RawPointerEvent) (f : RawPointerEvent → Invocation) :
    invocationsOf (l.map fun e => Effect.invoke (f e)) = l.map f := by
  induction l with
  | nil => rfl
  | cons e rest ih => simp [invocationsOf, List.filterMap_cons] at ih ⊢; exact ih

lemma invocations_pointermove (d : MoveDelivery) (scale : ℚ) (prevent : Bool)
    (h : d.root.pointer_type = "mouse" ∨ d.root.pointer_type = "touch") :
    invocationsOf (pointermove_callback d scale prevent) =
      (expandCoalesced d).map (moveEmit d.root.pointer_id (mouseCache d.root) scale) := by
  rcases h with h | h
  · rw [pointermove_callback, h]
    simp only [reduceIte]
    exact invocationsOf_invoke_map _ _
  · rw [pointermove_callback, h]
    simp only [reduceIte]
    rw [invocationsOf_append, invocationsOf_invoke_map]
    rcases prevent with _ | _ <;> simp [invocationsOf]

lemma forcesOf_append (a b : List Effect) :
    forcesOf (a ++ b) = forcesOf a ++ forcesOf b :=
  List.filterMap_append a b _

lemma forcesOf_invoke_touchMove (id : Int) (scale : ℚ) (l : List RawPointerEvent) :
    forcesOf (l.map fun e => Effect.invoke (moveEmit id none scale e)) =
      l.map fun e => Force.Normalized e.pressure := by
  induction l with
  | nil => rfl
  | cons e rest ih => simp [forcesOf, List.filterMap_cons, moveEmit] at ih ⊢; exact ih

lemma forcesOf_pointermove_touch (d : MoveDelivery) (scale : ℚ) (prevent : Bool)
    (ht : d.root.pointer_type = "touch") :
    forcesOf (pointermove_callback d scale prevent) =
      (expandCoalesced d).map fun s => Force.Normalized s.pressure := by
  have hc : mouseCache d.root = none := by simp [mouseCache, ht]
  rw [pointermove_callback, ht]
  simp only [reduceIte]
  rw [forcesOf_append, hc, forcesOf_invoke_touchMove]
  rcases prevent with _ | _ <;> simp [forcesOf]

/-- A concrete raw mouse event used to instantiate witnesses: the mouse-click
scenario event of the spec (id 1, left button, logical position (10, 20)). -/
def baseEvent : RawPointerEvent :=
  { pointer_type := "mouse"
    pointer_id := 1
    pressure := 0
    mouse_modifiers := ⟨false, false, false, false⟩
    mouse_buttons := ⟨0⟩
    mouse_button := some MouseButton.Left
    mouse_position := ⟨10, 20⟩
    mouse_delta := ⟨1, 2⟩
    touch_position := ⟨3, 4⟩ }

/-- A concrete raw event of an unrecognized pointer type. -/
def penEvent : RawPointerEvent := { baseEvent with pointer_type := "pen" }

/-- A concrete raw touch event. -/
def touchEvent : RawPointerEvent := { baseEvent with pointer_type := "touch" }

/-- A concrete coalesced touch sub-event with its own position and pressure. -/
def touchSub1 : RawPointerEvent :=
  { touchEvent with touch_position := ⟨5, 6⟩, pressure := 1 / 2 }

/-- A second concrete coalesced touch sub-event. -/
def touchSub2 : RawPointerEvent :=
  { touchEvent with touch_position := ⟨7, 8⟩, pressure := 3 / 4 }

/-- Claim C8: `remove_listeners` clears all six subscription slots of the
registry to the empty state and is idempotent: applied twice in succession it
produces no error and leaves the registry empty both times. -/
theorem remove_listeners_clears_and_idempotent (h : PointerHandler) :
    remove_listeners h = PointerHandler.new ∧
    remove_listeners (remove_listeners h) = remove_listeners h ∧
    (remove_listeners h).on_cursor_leave = none ∧
    (remove_listeners h).on_cursor_enter = none ∧
    (remove_listeners h).on_cursor_move = none ∧
    (remove_listeners h).on_pointer_press = none ∧
    (remove_listeners h).on_pointer_release = none ∧
    (remove_listeners h).on_touch_cancel = none :=
  ⟨rfl, rfl, rfl, rfl, rfl, rfl, rfl, rfl⟩

/-- Claim C7: a raw event whose pointer type is neither "mouse" nor "touch"
fires no handler on any of the six dispatch routines; in addition Enter/Leave
fire no handler for "touch" events and Touch Cancel fires none for "mouse"
events. -/
theorem other_kind_fires_no_handler
    (e : RawPointerEvent) (d : MoveDelivery) (et em : RawPointerEvent)
    (scale : ℚ) (prevent captureResult : Bool)
    (he : e.pointer_type ≠ "mouse" ∧ e.pointer_type ≠ "touch")
    (hd : d.root.pointer_type ≠ "mouse" ∧ d.root.pointer_type ≠ "touch")
    (ht : et.pointer_type = "touch") (hm : em.pointer_type = "mouse") :
    cursor_enter_callback e = [] ∧
    cursor_leave_callback e = [] ∧
    pointer_press_callback e scale captureResult = Except.ok [] ∧
    pointer_release_callback e scale = Except.ok [] ∧
    pointermove_callback d scale prevent = [] ∧
    touch_cancel_callback e scale = [] ∧
    cursor_enter_callback et = [] ∧
    cursor_leave_callback et = [] ∧
    touch_cancel_callback em scale = [] := by
  obtain ⟨he1, he2⟩ := he
  obtain ⟨hd1, hd2⟩ := hd
  refine ⟨?_, ?_, ?_, ?_, ?_, ?_, ?_, ?_, ?_⟩
  · simp [cursor_enter_callback, he1]
  · simp [cursor_leave_callback, he1]
  · simp [pointer_press_callback, he1, he2]
  · simp [pointer_release_callback, he1, he2]
  · simp [pointermove_callback, hd1, hd2]
  · simp [touch_cancel_callback, he2]
  · simp [cursor_enter_callback, ht]
  · simp [cursor_leave_callback, ht]
  · simp [touch_cancel_callback, hm]

/-- Claim C7 witness: instantiated at a concrete "pen" event, a concrete
"touch" event and a concrete "mouse" event. -/
theorem other_kind_fires_no_handler_witness :
    cursor_enter_callback penEvent = [] ∧
    cursor_leave_callback penEvent = [] ∧
    pointer_press_callback penEvent 1 true = Except.ok [] ∧
    pointer_release_callback penEvent 1 = Except.ok [] ∧
    pointermove_callback ⟨penEvent, none⟩ 1 false = [] ∧
    touch_cancel_callback penEvent 1 = [] ∧
    cursor_enter_callback touchEvent = [] ∧
    cursor_leave_callback touchEvent = [] ∧
    touch_cancel_callback baseEvent 1 = [] :=
  other_kind_fires_no_handler penEvent ⟨penEvent, none⟩ touchEvent baseEvent 1 false true
    ⟨by decide, by decide⟩ ⟨by decide, by decide⟩ rfl rfl

/-- Claim C3: every pointermove delivery expands to a non-empty sequence; a
missing accessor or an empty batch yields exactly one invocation built from the
root event, and a non-empty batch of N sub-events yields exactly N invocations
in batch order, the root not being separately emitted. -/
theorem coalesced_expansion_count_and_order (d : MoveDelivery) (scale : ℚ) (prevent : Bool)
    (h : d.root.pointer_type = "mouse" ∨ d.root.pointer_type = "touch") :
    (invocationsOf (pointermove_callback d scale prevent)).length =
        (expandCoalesced d).length ∧
    ((d.coalesced = none ∨ d.coalesced = some []) →
      invocationsOf (pointermove_callback d scale prevent) =
        [moveEmit d.root.pointer_id (mouseCache d.root) scale d.root]) ∧
    (∀ b : List RawPointerEvent, d.coalesced = some b → b ≠ [] →
      invocationsOf (pointermove_callback d scale prevent) =
        b.map (moveEmit d.root.pointer_id (mouseCache d.root) scale)) := by
  rw [invocations_pointermove d scale prevent h]
  refine ⟨by simp, ?_, ?_⟩
  · rintro (hc | hc) <;> simp [expandCoalesced, hc]
  · intro b hb hne
    simp [expandCoalesced, hb, List.length_eq_zero, hne]

/-- Claim C3 witness: a concrete touch delivery with a two-element coalesced
batch produces exactly the two corresponding invocations, in batch order. -/
theorem coalesced_expansion_count_and_order_witness :
    invocationsOf (pointermove_callback ⟨touchEvent, some [touchSub1, touchSub2]⟩ 1 false) =
      [touchSub1, touchSub2].map
        (moveEmit touchEvent.pointer_id (mouseCache touchEvent) 1) :=
  (coalesced_expansion_count_and_order ⟨touchEvent, some [touchSub1, touchSub2]⟩ 1 false
    (Or.inr rfl)).2.2 [touchSub1, touchSub2] rfl (by decide)

/-- Claim C4: a "mouse" pointerdown or pointerup whose button extraction yields
`none` aborts the handler invocation with a diagnostic (the `expect` message)
instead of invoking the handler with a default button. -/
theorem missing_mouse_button_aborts (e : RawPointerEvent) (scale : ℚ) (captureResult : Bool)
    (h : e.pointer_type = "mouse") (hb : e.mouse_button = none) :
    pointer_press_callback e scale captureResult = Except.error "no mouse button pressed" ∧
    pointer_release_callback e scale = Except.error "no mouse button released" := by
  constructor <;> simp [pointer_press_callback, pointer_release_callback, h, hb]

/-- A concrete "mouse" event with no extractable changed button. -/
def buttonlessMouse : RawPointerEvent := { baseEvent with mouse_button := none }

/-- Claim C4 witness: instantiated at a buttonless mouse event. -/
theorem missing_mouse_button_aborts_witness :
    pointer_press_callback buttonlessMouse 1 true = Except.error "no mouse button pressed" ∧
    pointer_release_callback buttonlessMouse 1 = Except.error "no mouse button released" :=
  missing_mouse_button_aborts buttonlessMouse 1 true rfl rfl

/-- Claim C5: the mouse-click scenario. A "pointerdown" with type "mouse",
id 1, left button, logical position (10, 20) and scale factor 2 invokes the
mouse press handler with id 1, physical position (20, 40), the left button and
the current modifiers, then requests pointer capture for id 1; the
success/failure of the capture request does not alter the callback outcome. -/
theorem mouse_click_scenario (mods : ModifiersState) (r1 r2 : Bool) :
    pointer_press_callback { baseEvent with mouse_modifiers := mods } 2 r1 =
      Except.ok [Effect.invoke (Invocation.mousePress 1 ⟨20, 40⟩ MouseButton.Left mods),
        Effect.setPointerCapture 1] ∧
    pointer_press_callback { baseEvent with mouse_modifiers := mods } 2 r1 =
      pointer_press_callback { baseEvent with mouse_modifiers := mods } 2 r2 := by
  constructor
  · simp [pointer_press_callback, baseEvent, LogicalPosition.to_physical]
    norm_num
  · rfl

/-- Claim C9: for touch-classified press, release, move and cancel events, the
force handed to the handler is `Force.Normalized p` with `p` in the closed unit
interval, under the host pressure contract (spec section 4.2: the pressure
extractor yields a value in the unit interval). -/
theorem touch_force_normalized_in_unit_range
    (e : RawPointerEvent) (d : MoveDelivery) (scale : ℚ) (prevent captureResult : Bool)
    (he : 0 ≤ e.pressure ∧ e.pressure ≤ 1)
    (hd : ∀ s ∈ expandCoalesced d, 0 ≤ s.pressure ∧ s.pressure ≤ 1) :
    (e.pointer_type = "touch" →
      (∀ f ∈ forcesOfE (pointer_press_callback e scale captureResult), f.inUnitRange) ∧
      (∀ f ∈ forcesOfE (pointer_release_callback e scale), f.inUnitRange) ∧
      (∀ f ∈ forcesOf (touch_cancel_callback e scale), f.inUnitRange)) ∧
    (d.root.pointer_type = "touch" →
      ∀ f ∈ forcesOf (pointermove_callback d scale prevent), f.inUnitRange) := by
  constructor
  · intro ht
    refine ⟨?_, ?_, ?_⟩ <;>
      simp [pointer_press_callback, pointer_release_callback, touch_cancel_callback, ht,
        forcesOfE, forcesOf, Force.inUnitRange, he.1, he.2]
  · intro ht f hf
    rw [forcesOf_pointermove_touch d scale prevent ht] at hf
    obtain ⟨s, hs, rfl⟩ := List.mem_map.mp hf
    exact hd s hs

/-- Claim C9 witness: instantiated at a concrete touch event of pressure 0 and
a concrete touch move delivery, picking the force of the press invocation. -/
theorem touch_force_normalized_witness :
    (Force.Normalized touchEvent.pressure).inUnitRange :=
  ((touch_force_normalized_in_unit_range touchEvent ⟨touchEvent, none⟩ 1 false true
      (by decide) (by decide)).1 rfl).1 (Force.Normalized touchEvent.pressure) (by decide)

/-- Claim C6: within a single mouse-classified pointermove delivery, every
mouse handler invocation carries the root event's modifiers and held-buttons
state, hence all invocations of the delivery report identical values. -/
theorem mouse_move_batch_constant_state (d : MoveDelivery) (scale : ℚ) (prevent : Bool)
    (h : d.root.pointer_type = "mouse") :
    ∀ inv ∈ invocationsOf (pointermove_callback d scale prevent),
      inv.moveModifiers = some d.root.mouse_modifiers ∧
      inv.moveButtons = some d.root.mouse_buttons := by
  intro inv hinv
  rw [invocations_pointermove d scale prevent (Or.inl h)] at hinv
  obtain ⟨s, hs, rfl⟩ := List.mem_map.mp hinv
  simp [moveEmit, mouseCache, h, Invocation.moveModifiers, Invocation.moveButtons]

/-- A concrete mouse root event with modifiers and held buttons set. -/
def mouseRootEvent : RawPointerEvent :=
  { baseEvent with
    mouse_modifiers := ⟨true, false, false, false⟩
    mouse_buttons := ⟨1⟩ }

/-- A concrete coalesced mouse sub-event with its own position. -/
def mouseSubEvent : RawPointerEvent := { mouseRootEvent with mouse_position := ⟨11, 21⟩ }

/-- Claim C6 witness: instantiated at a concrete single-sub-event mouse batch,
at the invocation produced for that sub-event. -/
theorem mouse_move_batch_constant_state_witness :
    (moveEmit mouseRootEvent.pointer_id (mouseCache mouseRootEvent) 1
        mouseSubEvent).moveModifiers = some mouseRootEvent.mouse_modifiers ∧
    (moveEmit mouseRootEvent.pointer_id (mouseCache mouseRootEvent) 1
        mouseSubEvent).moveButtons = some mouseRootEvent.mouse_buttons :=
  mouse_move_batch_constant_state ⟨mouseRootEvent, some [mouseSubEvent]⟩ 1 false rfl
    (moveEmit mouseRootEvent.pointer_id (mouseCache mouseRootEvent) 1 mouseSubEvent)
    (by exact List.mem_singleton.mpr rfl)

/-- Claim C10: in the move dispatch, the pointer id handed to every handler
invocation (mouse or touch) is the root event's id, captured once before
expansion, and on the mouse path the changed-button argument is the root
event's, constant across the whole batch. -/
theorem move_dispatch_root_id_and_button (d : MoveDelivery) (scale : ℚ) (prevent : Bool)
    (h : d.root.pointer_type = "mouse" ∨ d.root.pointer_type = "touch") :
    ∀ inv ∈ invocationsOf (pointermove_callback d scale prevent),
      inv.invId = d.root.pointer_id ∧
      (d.root.pointer_type = "mouse" → inv.moveButton = some d.root.mouse_button) := by
  intro inv hinv
  rw [invocations_pointermove d scale prevent h] at hinv
  obtain ⟨s, hs, rfl⟩ := List.mem_map.mp hinv
  constructor
  · rcases hm : mouseCache d.root with _ | ⟨m, bs, b⟩ <;>
      simp [moveEmit, hm, Invocation.invId]
  · intro hmouse
    simp [moveEmit, mouseCache, hmouse, Invocation.moveButton]

/-- A concrete coalesced mouse sub-event carrying a pointer id different from
its root's. -/
def subOtherId : RawPointerEvent := { mouseRootEvent with pointer_id := 99 }

/-- Claim C10 witness: with a sub-event whose own id is 99 under a root of
id 1, the invocation still carries the root's id 1 and the root's button. -/
theorem move_dispatch_root_id_and_button_witness :
    (moveEmit mouseRootEvent.pointer_id (mouseCache mouseRootEvent) 1
        subOtherId).invId = mouseRootEvent.pointer_id ∧
    (moveEmit mouseRootEvent.pointer_id (mouseCache mouseRootEvent) 1
        subOtherId).moveButton = some mouseRootEvent.mouse_button :=
  ⟨(move_dispatch_root_id_and_button ⟨mouseRootEvent, some [subOtherId]⟩ 1 false
      (Or.inl rfl)
      (moveEmit mouseRootEvent.pointer_id (mouseCache mouseRootEvent) 1 subOtherId)
      (by exact List.mem_singleton.mpr rfl)).1,
    (move_dispatch_root_id_and_button ⟨mouseRootEvent, some [subOtherId]⟩ 1 false
      (Or.inl rfl)
      (moveEmit mouseRootEvent.pointer_id (mouseCache mouseRootEvent) 1 subOtherId)
      (by exact List.mem_singleton.mpr rfl)).2 rfl⟩

/-- A concrete mouse move root event with the shift modifier set. -/
def c1Root : RawPointerEvent :=
  { baseEvent with mouse_modifiers := ⟨true, false, false, false⟩ }

/-- A concrete coalesced sub-event of `c1Root` carrying DIFFERENT modifiers
(control instead of shift) and its own position. -/
def c1Sub : RawPointerEvent :=
  { c1Root with
    mouse_modifiers := ⟨false, true, false, false⟩
    mouse_position := ⟨11, 21⟩ }

/-- Claim C1 counterexample: for a mouse move delivery whose single coalesced
sub-event carries modifiers different from the root's, the production
invocation carries the ROOT event's modifiers (shift), not the sub-event's
(control): the modifiers, buttons and button handed to the handler are the
values cached from the root before expansion, and the sub-event's own values
are consulted only by debug assertions. -/
theorem move_subevent_attributes_counterexample :
    invocationsOf (pointermove_callback ⟨c1Root, some [c1Sub]⟩ 1 false) =
      [Invocation.mouseMove 1 ⟨11, 21⟩ ⟨1, 2⟩ ⟨true, false, false, false⟩ ⟨0⟩
        (some MouseButton.Left)] ∧
    c1Sub.mouse_modifiers ≠ ⟨true, false, false, false⟩ := by
  constructor
  · simp [invocationsOf, pointermove_callback, expandCoalesced, mouseCache, moveEmit,
      c1Root, c1Sub, baseEvent, LogicalPosition.to_physical]
  · decide

/-- Claim C1 amended: for every mouse-classified pointermove delivery with a
non-empty coalesced batch of N sub-events, exactly N mouse handler invocations
occur in batch order; each invocation's position and delta are extracted from
the sub-event itself, while the pointer id, modifiers, buttons and button
arguments are the root event's values, cached once before expansion (the
sub-event's values serve only in debug-only consistency checks). -/
theorem move_subevent_position_root_attributes (d : MoveDelivery) (scale : ℚ)
    (prevent : Bool) (b : List RawPointerEvent)
    (h : d.root.pointer_type = "mouse") (hb : d.coalesced = some b) (hne : b ≠ []) :
    invocationsOf (pointermove_callback d scale prevent) =
      b.map fun s =>
        Invocation.mouseMove d.root.pointer_id (s.mouse_position.to_physical scale)
          (s.mouse_delta.to_physical scale) d.root.mouse_modifiers d.root.mouse_buttons
          d.root.mouse_button := by
  rw [invocations_pointermove d scale prevent (Or.inl h)]
  have he : expandCoalesced d = b := by
    simp [expandCoalesced, hb, List.length_eq_zero, hne]
  rw [he]
  simp [moveEmit, mouseCache, h]

/-- Claim C1 amended witness: instantiated at the concrete one-sub-event batch
of the counterexample. -/
theorem move_subevent_position_root_attributes_witness :
    invocationsOf (pointermove_callback ⟨c1Root, some [c1Sub]⟩ 1 false) =
      [c1Sub].map fun s =>
        Invocation.mouseMove c1Root.pointer_id (s.mouse_position.to_physical 1)
          (s.mouse_delta.to_physical 1) c1Root.mouse_modifiers c1Root.mouse_buttons
          c1Root.mouse_button :=
  move_subevent_position_root_attributes ⟨c1Root, some [c1Sub]⟩ 1 false [c1Sub]
    rfl rfl (by decide)

/-- A concrete registry holding active move and leave subscriptions. -/
def c2Registry : PointerHandler :=
  { PointerHandler.new with on_cursor_move := some 0, on_cursor_leave := some 5 }

/-- Claim C2 counterexample: re-registering the move handler over an active
subscription ATTACHES the new listener first and disposes the old handle only
afterwards (Rust evaluates the right-hand side of the slot assignment,
attaching via `add_event`, before dropping the slot's previous value), so after
the first action of the trace the old and the new listener are both attached:
the old handle is not disposed before the new handler is attached. -/
theorem install_disposal_order_counterexample :
    (on_cursor_move_install c2Registry 1).2 =
      [RegistryAction.attach "pointermove" 1, RegistryAction.dispose "pointermove" 0] ∧
    activeTokens [RegistryAction.attach "pointermove" 1] [0] = [0, 1] := by
  decide

/-- Claim C2 amended: re-registering an entry point over an active subscription
attaches the new listener first and then disposes the old handle, within the
same synchronous call; afterwards the slot holds exactly the new subscription,
and processing the full action trace leaves exactly the new listener attached.
Shown for the cited `on_cursor_move` and `on_cursor_leave` entry points. -/
theorem install_supersedes_subscription (h : PointerHandler) (t u fresh : Nat)
    (hm : h.on_cursor_move = some t) (hl : h.on_cursor_leave = some u) :
    (on_cursor_move_install h fresh).1.on_cursor_move = some fresh ∧
    (on_cursor_move_install h fresh).2 =
      [RegistryAction.attach "pointermove" fresh, RegistryAction.dispose "pointermove" t] ∧
    activeTokens (on_cursor_move_install h fresh).2 [t] = [fresh] ∧
    (on_cursor_leave_install h fresh).1.on_cursor_leave = some fresh ∧
    (on_cursor_leave_install h fresh).2 =
      [RegistryAction.attach "pointerout" fresh, RegistryAction.dispose "pointerout" u] ∧
    activeTokens (on_cursor_leave_install h fresh).2 [u] = [fresh] := by
  refine ⟨rfl, ?_, ?_, rfl, ?_, ?_⟩ <;>
    simp [on_cursor_move_install, on_cursor_leave_install, replaceSubscription, hm, hl,
      activeTokens]

/-- Claim C2 amended witness: instantiated at the concrete registry with move
subscription token 0, leave subscription token 5, and fresh token 1. -/
theorem install_supersedes_subscription_witness :
    (on_cursor_move_install c2Registry 1).1.on_cursor_move = some 1 ∧
    (on_cursor_move_install c2Registry 1).2 =
      [RegistryAction.attach "pointermove" 1, RegistryAction.dispose "pointermove" 0] ∧
    activeTokens (on_cursor_move_install c2Registry 1).2 [0] = [1] ∧
    (on_cursor_leave_install c2Registry 1).1.on_cursor_leave = some 1 ∧
    (on_cursor_leave_install c2Registry 1).2 =
      [RegistryAction.attach "pointerout" 1, RegistryAction.dispose "pointerout" 5] ∧
    activeTokens (on_cursor_leave_install c2Registry 1).2 [5] = [1] :=
  install_supersedes_subscription c2Registry 0 5 1 rfl rfl
